import Mathlib

/-!
Verification of the bplist00 decoder (Rust crate `bplist`).

This file shallowly embeds the decoding core of the crate: the wire-level
parsers (`src/de/parser/utils.rs`, `src/de/parser/object.rs`,
`src/de/parser/document.rs`), the envelope/metadata parser and the
object-table layer (`src/de/mod.rs`), and the reentrant object-tree walker
with cycle detection (`src/de/mod.rs`).

Modelling conventions:
  * Bytes are `Nat` (every byte of a concrete document is `< 256`).
  * `usize`/`u64` arithmetic is 64-bit: additions and multiplications on
    `usize` wrap modulo `2^64` (Rust release-profile semantics); the points
    where the Rust code can panic (slice indexing with a reversed or
    out-of-bounds range, the `assert!` in `be_u64_n` and in the
    `array`/`dictionary` parser factories, fuel exhaustion of the walker,
    which is unreachable and stands in for unbounded recursion) are modelled
    by an explicit `panic` outcome.
  * `usize::try_from(u64)` is parametrised by the platform word maximum
    `M` in the wire primitives; the document-level pipeline instantiates
    `M = 2^64 - 1` (a 64-bit host).
  * Floating point payloads (Float32/Float64/Date) are carried as their raw
    big-endian bit patterns; the decoder never computes with them.
  * `nom` parser failures carry no information used by the crate, so a
    parser yields `ok rest value`, `fail`, or `panic`.
  * The `BTreeSet<usize>` used as the enter-collection stack is modelled as
    a strictly sorted ascending list; `iter().next_back()` is its last
    element (the maximum), `insert` is ordered insertion.
-/

namespace BPlist

/-- Decoding failure kinds, from `src/error.rs` (the `Message` payload is
irrelevant to the decoder core and omitted). -/
inductive Error where
  | Message
  | MissingOrInvalidHeader
  | MissingOrInvalidOffsetTable
  | MissingOrInvalidTrailer
  | UnsupportedVersion
  | InvalidObjectReference
  | InvalidOffsetToObject
  | InvalidOrUnsupportedObjectFormat
  | InvalidRootObject
  | RootObjectNotArrayOrDictionary
  | ExpectedBool
  | ExpectedFill
  | ExpectedUInt8
  | ExpectedUInt16
  | ExpectedUInt32
  | ExpectedSInt64
  | ExpectedFloat32
  | ExpectedFloat64
  | ExpectedArray
  | ExpectedDate
  | ExpectedData
  | ExpectedAsciiString
  | ExpectedUtf16String
  | ExpectedUid
  | ExpectedDictionary
  | CycleDetected
  | Eof
deriving DecidableEq

/-- The closed set of object wire formats, from `src/document.rs`. -/
inductive ObjectFormat where
  | Boolean
  | Fill
  | UInt8
  | UInt16
  | UInt32
  | SInt64
  | Float32
  | Float64
  | Date
  | Data
  | AsciiString
  | Utf16String
  | Uid
  | Array
  | Dictionary
deriving DecidableEq

namespace ObjectFormat

/-- `ObjectFormat::tag_mask` from `src/document.rs`. -/
def tag_mask : ObjectFormat → Nat
  | .Boolean => 0xFE
  | .Fill | .UInt8 | .UInt16 | .UInt32 | .SInt64 | .Float32 | .Float64 | .Date => 0xFF
  | .Data | .AsciiString | .Utf16String | .Uid | .Array | .Dictionary => 0xF0

/-- `ObjectFormat::value_mask` from `src/document.rs`. -/
def value_mask : ObjectFormat → Nat
  | .Boolean => 0x01
  | .Fill | .UInt8 | .UInt16 | .UInt32 | .SInt64 | .Float32 | .Float64 | .Date => 0x00
  | .Data | .AsciiString | .Utf16String | .Uid | .Array | .Dictionary => 0x0F

/-- `ObjectFormat::tag_bits` from `src/document.rs`. -/
def tag_bits : ObjectFormat → Nat
  | .Boolean => 0x08
  | .Fill => 0x0F
  | .UInt8 => 0x10
  | .UInt16 => 0x11
  | .UInt32 => 0x12
  | .SInt64 => 0x13
  | .Float32 => 0x22
  | .Float64 => 0x23
  | .Date => 0x33
  | .Data => 0x40
  | .AsciiString => 0x50
  | .Utf16String => 0x60
  | .Uid => 0x80
  | .Array => 0xA0
  | .Dictionary => 0xD0

end ObjectFormat

/-- `HEADER_SIZE` from `src/document.rs`. -/
def HEADER_SIZE : Nat := 8

/-- `HEADER_MAGIC_NUMBER` from `src/document.rs` ("bplist"). -/
def HEADER_MAGIC_NUMBER : List Nat := [0x62, 0x70, 0x6C, 0x69, 0x73, 0x74]

/-- `TRAILER_SIZE` from `src/document.rs`. -/
def TRAILER_SIZE : Nat := 32

/-- `TRAILER_PREAMBLE_UNUSED_SIZE` from `src/document.rs`. -/
def TRAILER_PREAMBLE_UNUSED_SIZE : Nat := 5

/-- One plus the largest value of a 64-bit machine word: `usize` and `u64`
arithmetic wraps modulo this constant on the modelled 64-bit host. -/
def W64 : Nat := 2 ^ 64

/-- `usize::MAX` on the modelled 64-bit host. -/
def USIZE_MAX : Nat := 2 ^ 64 - 1

/-- Result of a `nom`-style byte parser: success with the remaining input,
failure, or a Rust panic. -/
inductive PRes (α : Type) where
  | ok (rest : List Nat) (val : α)
  | fail
  | panic
deriving DecidableEq

/-- `nom::bytes::complete::take`: consume exactly `n` bytes. -/
def takeP (n : Nat) (input : List Nat) : PRes (List Nat) :=
  if n ≤ input.length then .ok (input.drop n) (input.take n) else .fail

/-- `nom::bytes::complete::tag`: consume an exact byte sequence. -/
def tagP (t : List Nat) (input : List Nat) : PRes (List Nat) :=
  if input.take t.length = t then .ok (input.drop t.length) t else .fail

/-- Big-endian accumulation of a byte list, as the fold in `be_u64_n`
(`src/de/parser/utils.rs`): `(acc << 8) + x`. -/
def beNat (bytes : List Nat) : Nat :=
  bytes.foldl (fun acc x => acc * 256 + x) 0

/-- `be_u64_n` from `src/de/parser/utils.rs`: reads `n` big-endian bytes.
The `assert!(n >= 1 && n <= 8)` is modelled as a panic outcome. -/
def be_u64_n (n : Nat) (input : List Nat) : PRes Nat :=
  if 1 ≤ n ∧ n ≤ 8 then
    match takeP n input with
    | .ok rest bytes => .ok rest (beNat bytes)
    | .fail => .fail
    | .panic => .panic
  else .panic

/-- `be_usize_n` from `src/de/parser/utils.rs`: `be_u64_n` followed by
`usize::try_from`, which fails when the value exceeds the platform word
maximum `M`. -/
def be_usize_n (M : Nat) (n : Nat) (input : List Nat) : PRes Nat :=
  match be_u64_n n input with
  | .ok rest v => if v ≤ M then .ok rest v else .fail
  | .fail => .fail
  | .panic => .panic

/-- `nom::number::complete::be_u8`. -/
def be_u8P (input : List Nat) : PRes Nat :=
  match input with
  | [] => .fail
  | b :: rest => .ok rest b

/-- `nom::number::complete::be_u16`. -/
def be_u16P (input : List Nat) : PRes Nat :=
  match takeP 2 input with
  | .ok rest bytes => .ok rest (beNat bytes)
  | .fail => .fail
  | .panic => .panic

/-- `nom::number::complete::be_u32`. -/
def be_u32P (input : List Nat) : PRes Nat :=
  match takeP 4 input with
  | .ok rest bytes => .ok rest (beNat bytes)
  | .fail => .fail
  | .panic => .panic

/-- `nom::number::complete::be_i64`: eight big-endian bytes as a two's
complement signed 64-bit value. -/
def be_i64P (input : List Nat) : PRes Int :=
  match takeP 8 input with
  | .ok rest bytes =>
      let v := beNat bytes
      .ok rest (if v < 2 ^ 63 then (v : Int) else (v : Int) - (W64 : Int))
  | .fail => .fail
  | .panic => .panic

/-- `i64 as u64`: two's complement reinterpretation of a signed 64-bit
value as unsigned. -/
def i64AsU64 (v : Int) : Nat := (v % (W64 : Int)).toNat

/-- `marker(format)` from `src/de/parser/object.rs`: consume one byte,
verify the tag bits under the format's mask, and yield the format together
with the encoded value bits. -/
def marker (format : ObjectFormat) (input : List Nat) : PRes (ObjectFormat × Nat) :=
  match input with
  | [] => .fail
  | b :: rest =>
      if b &&& format.tag_mask = format.tag_bits then
        .ok rest (format, b &&& format.value_mask)
      else .fail

/-- `nom::branch::alt` on two parsers: the second runs only if the first
fails. -/
def altP {α : Type} (first second : PRes α) : PRes α :=
  match first with
  | .ok r v => .ok r v
  | .panic => .panic
  | .fail => second

/-- `any_marker` from `src/de/parser/object.rs`: `alt` over all formats in
source order. -/
def any_marker (input : List Nat) : PRes (ObjectFormat × Nat) :=
  altP (marker .Boolean input) <|
  altP (marker .Fill input) <|
  altP (marker .UInt8 input) <|
  altP (marker .UInt16 input) <|
  altP (marker .UInt32 input) <|
  altP (marker .SInt64 input) <|
  altP (marker .Float32 input) <|
  altP (marker .Float64 input) <|
  altP (marker .Date input) <|
  altP (marker .Data input) <|
  altP (marker .AsciiString input) <|
  altP (marker .Utf16String input) <|
  altP (marker .Uid input) <|
  altP (marker .Array input) <|
  marker .Dictionary input

/-- `boolean` from `src/de/parser/object.rs`. -/
def boolean (input : List Nat) : PRes Bool :=
  match marker .Boolean input with
  | .ok rest (_, v) => .ok rest (v == 1)
  | .fail => .fail
  | .panic => .panic

/-- `fill` from `src/de/parser/object.rs`. -/
def fill (input : List Nat) : PRes Unit :=
  match marker .Fill input with
  | .ok rest _ => .ok rest ()
  | .fail => .fail
  | .panic => .panic

/-- `uint8` from `src/de/parser/object.rs`. -/
def uint8 (input : List Nat) : PRes Nat :=
  match marker .UInt8 input with
  | .ok rest _ => be_u8P rest
  | .fail => .fail
  | .panic => .panic

/-- `uint16` from `src/de/parser/object.rs`. -/
def uint16 (input : List Nat) : PRes Nat :=
  match marker .UInt16 input with
  | .ok rest _ => be_u16P rest
  | .fail => .fail
  | .panic => .panic

/-- `uint32` from `src/de/parser/object.rs`. -/
def uint32 (input : List Nat) : PRes Nat :=
  match marker .UInt32 input with
  | .ok rest _ => be_u32P rest
  | .fail => .fail
  | .panic => .panic

/-- `sint64` from `src/de/parser/object.rs`. -/
def sint64 (input : List Nat) : PRes Int :=
  match marker .SInt64 input with
  | .ok rest _ => be_i64P rest
  | .fail => .fail
  | .panic => .panic

/-- `float32` from `src/de/parser/object.rs` (payload kept as its bit
pattern). -/
def float32 (input : List Nat) : PRes Nat :=
  match marker .Float32 input with
  | .ok rest _ => be_u32P rest
  | .fail => .fail
  | .panic => .panic

/-- `float64` from `src/de/parser/object.rs` (payload kept as its bit
pattern). -/
def float64 (input : List Nat) : PRes Nat :=
  match marker .Float64 input with
  | .ok rest _ =>
      match takeP 8 rest with
      | .ok rest2 bytes => .ok rest2 (beNat bytes)
      | .fail => .fail
      | .panic => .panic
  | .fail => .fail
  | .panic => .panic

/-- `date` from `src/de/parser/object.rs` (payload kept as its bit
pattern). -/
def date (input : List Nat) : PRes Nat :=
  match marker .Date input with
  | .ok rest _ =>
      match takeP 8 rest with
      | .ok rest2 bytes => .ok rest2 (beNat bytes)
      | .fail => .fail
      | .panic => .panic
  | .fail => .fail
  | .panic => .panic

/-- The `alt` of the four integer-object parsers inside `payload_count`
(`src/de/parser/object.rs`), each mapped to `u64`; the SInt64 value is
reinterpreted as unsigned (`value as u64`). -/
def intObjectU64 (input : List Nat) : PRes Nat :=
  match uint8 input with
  | .ok r v => .ok r v
  | .panic => .panic
  | .fail =>
    match uint16 input with
    | .ok r v => .ok r v
    | .panic => .panic
    | .fail =>
      match uint32 input with
      | .ok r v => .ok r v
      | .panic => .panic
      | .fail =>
        match sint64 input with
        | .ok r v => .ok r (i64AsU64 v)
        | .panic => .panic
        | .fail => .fail

/-- `payload_count` from `src/de/parser/object.rs`: for an encoded value of
at most 14 the count is the value itself and no input is consumed; for 15
an inline integer object (UInt8/UInt16/UInt32/SInt64 in `alt` order)
follows, reinterpreted as unsigned and range-checked against the platform
word maximum `M` (`usize::try_from`). The `assert!` that the encoded value
is a 4-bit quantity is modelled as a panic. -/
def payload_count (M : Nat) (encoded_value : Nat) (input : List Nat) : PRes Nat :=
  if encoded_value &&& 0xF0 ≠ 0 then .panic
  else if encoded_value = 0x0F then
    match intObjectU64 input with
    | .ok rest v => if v ≤ M then .ok rest v else .fail
    | .fail => .fail
    | .panic => .panic
  else .ok input encoded_value

/-- `many_m_n(n, n, p)`: run a parser exactly `n` times. -/
def countP {α : Type} (p : List Nat → PRes α) : Nat → List Nat → PRes (List α)
  | 0, input => .ok input []
  | n + 1, input =>
      match p input with
      | .ok rest v =>
          match countP p n rest with
          | .ok rest2 vs => .ok rest2 (v :: vs)
          | .fail => .fail
          | .panic => .panic
      | .fail => .fail
      | .panic => .panic

/-- `data` from `src/de/parser/object.rs`. -/
def dataP (M : Nat) (input : List Nat) : PRes (List Nat) :=
  match marker .Data input with
  | .ok rest (_, v) =>
      match payload_count M v rest with
      | .ok rest2 n => takeP n rest2
      | .fail => .fail
      | .panic => .panic
  | .fail => .fail
  | .panic => .panic

/-- `ascii_string` from `src/de/parser/object.rs`: `AsciiStr::from_ascii`
accepts exactly the byte sequences whose bytes are all `≤ 0x7F`. -/
def ascii_string (M : Nat) (input : List Nat) : PRes (List Nat) :=
  match marker .AsciiString input with
  | .ok rest (_, v) =>
      match payload_count M v rest with
      | .ok rest2 n =>
          match takeP n rest2 with
          | .ok rest3 bytes =>
              if bytes.all (fun b => b ≤ 0x7F) then .ok rest3 bytes else .fail
          | .fail => .fail
          | .panic => .panic
      | .fail => .fail
      | .panic => .panic
  | .fail => .fail
  | .panic => .panic

/-- UTF-16 well-formedness of a code unit sequence, as validated by
`String::from_utf16`: no unpaired surrogates. -/
def utf16Valid : List Nat → Bool
  | [] => true
  | u :: rest =>
      if u < 0xD800 || 0xDFFF < u then utf16Valid rest
      else if u ≤ 0xDBFF then
        match rest with
        | [] => false
        | u2 :: rest2 =>
            if 0xDC00 ≤ u2 ∧ u2 ≤ 0xDFFF then utf16Valid rest2 else false
      else false

/-- `utf16_string` from `src/de/parser/object.rs`: reads the count in code
units, then that many big-endian 16-bit units, and validates them as
UTF-16 (the value is carried as the code unit list). -/
def utf16_string (M : Nat) (input : List Nat) : PRes (List Nat) :=
  match marker .Utf16String input with
  | .ok rest (_, v) =>
      match payload_count M v rest with
      | .ok rest2 n =>
          match countP be_u16P n rest2 with
          | .ok rest3 units =>
              if utf16Valid units then .ok rest3 units else .fail
          | .fail => .fail
          | .panic => .panic
      | .fail => .fail
      | .panic => .panic
  | .fail => .fail
  | .panic => .panic

/-- `uid` from `src/de/parser/object.rs`: the payload is `value_bits + 1`
bytes; no extended-count form. -/
def uid (input : List Nat) : PRes (List Nat) :=
  match marker .Uid input with
  | .ok rest (_, v) => takeP (v + 1) rest
  | .fail => .fail
  | .panic => .panic

/-- `array(object_reference_size)` from `src/de/parser/object.rs`: count
header followed by that many object references. The factory's
`assert!(object_reference_size <= 8)` is modelled as a panic. -/
def arrayP (M : Nat) (object_reference_size : Nat) (input : List Nat) : PRes (List Nat) :=
  if object_reference_size > 8 then .panic
  else
    match marker .Array input with
    | .ok rest (_, v) =>
        match payload_count M v rest with
        | .ok rest2 n => countP (be_usize_n M object_reference_size) n rest2
        | .fail => .fail
        | .panic => .panic
    | .fail => .fail
    | .panic => .panic

/-- `dictionary(object_reference_size)` from `src/de/parser/object.rs`:
count header, then that many key references followed contiguously by that
many value references, zipped positionally. -/
def dictionary (M : Nat) (object_reference_size : Nat) (input : List Nat) :
    PRes (List (Nat × Nat)) :=
  if object_reference_size > 8 then .panic
  else
    match marker .Dictionary input with
    | .ok rest (_, v) =>
        match payload_count M v rest with
        | .ok rest2 n =>
            match countP (be_usize_n M object_reference_size) n rest2 with
            | .ok rest3 keys =>
                match countP (be_usize_n M object_reference_size) n rest3 with
                | .ok rest4 vals => .ok rest4 (keys.zip vals)
                | .fail => .fail
                | .panic => .panic
            | .fail => .fail
            | .panic => .panic
        | .fail => .fail
        | .panic => .panic
    | .fail => .fail
    | .panic => .panic

/-- `Header` from `src/document.rs`. -/
structure Header where
  version : Nat × Nat
deriving DecidableEq

/-- `header` from `src/de/parser/document.rs`: the 6-byte magic number
followed by two version bytes. -/
def headerP (input : List Nat) : PRes Header :=
  match tagP HEADER_MAGIC_NUMBER input with
  | .ok rest _ =>
      match be_u8P rest with
      | .ok rest2 major =>
          match be_u8P rest2 with
          | .ok rest3 minor => .ok rest3 ⟨(major, minor)⟩
          | .fail => .fail
          | .panic => .panic
      | .fail => .fail
      | .panic => .panic
  | .fail => .fail
  | .panic => .panic

/-- `HEADER_VERSION_00` from `src/document.rs`. -/
def HEADER_VERSION_00 : Nat × Nat := (0x30, 0x30)

/-- `Trailer` from `src/document.rs`. -/
structure Trailer where
  sort_version : Nat
  offset_table_entry_size : Nat
  object_reference_size : Nat
  number_of_objects : Nat
  root_object : Nat
  offset_table_offset : Nat
deriving DecidableEq

/-- `trailer` from `src/de/parser/document.rs`: 5 unused bytes, the sort
version, the two entry sizes, and three 8-byte big-endian fields, all
converted through `be_usize_n` with the 64-bit platform word maximum. -/
def trailerP (input : List Nat) : PRes Trailer :=
  match takeP TRAILER_PREAMBLE_UNUSED_SIZE input with
  | .ok r0 _ =>
      match be_u8P r0 with
      | .ok r1 sv =>
          match be_usize_n USIZE_MAX 1 r1 with
          | .ok r2 entry =>
              match be_usize_n USIZE_MAX 1 r2 with
              | .ok r3 refsz =>
                  match be_usize_n USIZE_MAX 8 r3 with
                  | .ok r4 nobj =>
                      match be_usize_n USIZE_MAX 8 r4 with
                      | .ok r5 root =>
                          match be_usize_n USIZE_MAX 8 r5 with
                          | .ok r6 off => .ok r6 ⟨sv, entry, refsz, nobj, root, off⟩
                          | .fail => .fail
                          | .panic => .panic
                      | .fail => .fail
                      | .panic => .panic
                  | .fail => .fail
                  | .panic => .panic
              | .fail => .fail
              | .panic => .panic
          | .fail => .fail
          | .panic => .panic
      | .fail => .fail
      | .panic => .panic
  | .fail => .fail
  | .panic => .panic

/-- `offset_table` from `src/de/parser/document.rs`: exactly `entries`
big-endian entries of `entry_size` bytes each. -/
def offset_tableP (entries entry_size : Nat) (input : List Nat) : PRes (List Nat) :=
  countP (be_usize_n USIZE_MAX entry_size) entries input

/-- `Metadata` from `src/de/mod.rs`; `object_table_range` is the half-open
range `[rangeStart, rangeEnd)`. -/
structure Metadata where
  offset_table : List Nat
  object_reference_size : Nat
  root_object : Nat
  rangeStart : Nat
  rangeEnd : Nat
deriving DecidableEq

/-- A computation that either yields a value, surfaces a decoder `Error`,
or panics (`Result<T>` in `src/de/mod.rs`, plus the panic outcome). -/
inductive Res (α : Type) where
  | ok (val : α)
  | err (e : Error)
  | panic
deriving DecidableEq

/-- Rust slice indexing `&input[a .. b]`: panics when the range is
reversed or out of bounds. -/
def sliceIdx (input : List Nat) (a b : Nat) : Res (List Nat) :=
  if a ≤ b ∧ b ≤ input.length then .ok ((input.take b).drop a) else .panic

/-- `Deserializer::parse_metadata` from `src/de/mod.rs`. The two `usize`
additions/multiplications wrap modulo `2^64` (release-profile semantics; a
debug build would panic outright at the inputs where the wrap matters). -/
def parse_metadata (input : List Nat) : Res Metadata :=
  if input.length < HEADER_SIZE + 2 + TRAILER_SIZE then .err .Eof
  else
    match headerP (input.take HEADER_SIZE) with
    | .fail => .err .MissingOrInvalidHeader
    | .panic => .panic
    | .ok _ header =>
      if header.version ≠ HEADER_VERSION_00 then .err .UnsupportedVersion
      else
        match trailerP (input.drop (input.length - TRAILER_SIZE)) with
        | .fail => .err .MissingOrInvalidTrailer
        | .panic => .panic
        | .ok _ trailer =>
          if trailer.root_object ≥ trailer.number_of_objects then .err .InvalidRootObject
          else
            let offset_table_start := trailer.offset_table_offset
            let offset_table_length :=
              trailer.number_of_objects * trailer.offset_table_entry_size % W64
            if (offset_table_start + offset_table_length) % W64 >
                input.length - TRAILER_SIZE then
              .err .MissingOrInvalidOffsetTable
            else
              match sliceIdx input offset_table_start
                  ((offset_table_start + offset_table_length) % W64) with
              | .panic => .panic
              | .err e => .err e
              | .ok offset_table_slice =>
                match offset_tableP trailer.number_of_objects
                    trailer.offset_table_entry_size offset_table_slice with
                | .fail => .err .MissingOrInvalidOffsetTable
                | .panic => .panic
                | .ok _ offset_table =>
                  .ok ⟨offset_table, trailer.object_reference_size,
                       trailer.root_object, HEADER_SIZE, offset_table_start⟩

/-- `ObjectTable` from `src/de/mod.rs`. -/
structure ObjectTable where
  input : List Nat
  metadata : Metadata
deriving DecidableEq

namespace ObjectTable

/-- `Metadata::offset_of` from `src/de/mod.rs`. -/
def offset_of (t : ObjectTable) (object : Nat) : Res Nat :=
  if object ≥ t.metadata.offset_table.length then .err .InvalidObjectReference
  else .ok (t.metadata.offset_table.getD object 0)

/-- `ObjectTable::data_for` from `src/de/mod.rs`: resolve the offset, check
it lies in the object-table range, and return the input suffix from that
offset (no upper bound). -/
def data_for (t : ObjectTable) (object : Nat) : Res (List Nat) :=
  match offset_of t object with
  | .err e => .err e
  | .panic => .panic
  | .ok offset =>
      if ¬ (t.metadata.rangeStart ≤ offset ∧ offset < t.metadata.rangeEnd) then
        .err .InvalidOffsetToObject
      else .ok (t.input.drop offset)

/-- `ObjectTable::kind_of` from `src/de/mod.rs`. -/
def kind_of (t : ObjectTable) (object : Nat) : Res ObjectFormat :=
  match data_for t object with
  | .err e => .err e
  | .panic => .panic
  | .ok data =>
      match any_marker data with
      | .ok _ (format, _) => .ok format
      | .fail => .err .InvalidOrUnsupportedObjectFormat
      | .panic => .panic

/-- The body of the `define_parser!` macro from `src/de/mod.rs`: fetch the
object's data, run the payload parser, and map a parse failure to the
kind-specific error. -/
def runParser {α : Type} (t : ObjectTable) (object : Nat)
    (p : List Nat → PRes α) (expected_error : Error) : Res α :=
  match data_for t object with
  | .err e => .err e
  | .panic => .panic
  | .ok data =>
      match p data with
      | .ok _ v => .ok v
      | .fail => .err expected_error
      | .panic => .panic

/-- `parse_boolean` (`define_parser!` instance in `src/de/mod.rs`). -/
def parse_boolean (t : ObjectTable) (object : Nat) : Res Bool :=
  runParser t object boolean .ExpectedBool

/-- `parse_fill` (`define_parser!` instance in `src/de/mod.rs`). -/
def parse_fill (t : ObjectTable) (object : Nat) : Res Unit :=
  runParser t object fill .ExpectedFill

/-- `parse_uint8` (`define_parser!` instance in `src/de/mod.rs`). -/
def parse_uint8 (t : ObjectTable) (object : Nat) : Res Nat :=
  runParser t object uint8 .ExpectedUInt8

/-- `parse_uint16` (`define_parser!` instance in `src/de/mod.rs`). -/
def parse_uint16 (t : ObjectTable) (object : Nat) : Res Nat :=
  runParser t object uint16 .ExpectedUInt16

/-- `parse_uint32` (`define_parser!` instance in `src/de/mod.rs`). -/
def parse_uint32 (t : ObjectTable) (object : Nat) : Res Nat :=
  runParser t object uint32 .ExpectedUInt32

/-- `parse_sint64` (`define_parser!` instance in `src/de/mod.rs`). -/
def parse_sint64 (t : ObjectTable) (object : Nat) : Res Int :=
  runParser t object sint64 .ExpectedSInt64

/-- `parse_float32` (`define_parser!` instance in `src/de/mod.rs`). -/
def parse_float32 (t : ObjectTable) (object : Nat) : Res Nat :=
  runParser t object float32 .ExpectedFloat32

/-- `parse_float64` (`define_parser!` instance in `src/de/mod.rs`). -/
def parse_float64 (t : ObjectTable) (object : Nat) : Res Nat :=
  runParser t object float64 .ExpectedFloat64

/-- `parse_date` (`define_parser!` instance in `src/de/mod.rs`). -/
def parse_date (t : ObjectTable) (object : Nat) : Res Nat :=
  runParser t object date .ExpectedDate

/-- `parse_data` (`define_parser!` instance in `src/de/mod.rs`). -/
def parse_data (t : ObjectTable) (object : Nat) : Res (List Nat) :=
  runParser t object (dataP USIZE_MAX) .ExpectedData

/-- `parse_ascii_string` (`define_parser!` instance in `src/de/mod.rs`). -/
def parse_ascii_string (t : ObjectTable) (object : Nat) : Res (List Nat) :=
  runParser t object (ascii_string USIZE_MAX) .ExpectedAsciiString

/-- `parse_utf16_string` (`define_parser!` instance in `src/de/mod.rs`).
The source maps its parse failure to `Error::ExpectedAsciiString`, not to
`Error::ExpectedUtf16String`, and this model reproduces that faithfully. -/
def parse_utf16_string (t : ObjectTable) (object : Nat) : Res (List Nat) :=
  runParser t object (utf16_string USIZE_MAX) .ExpectedAsciiString

/-- `parse_uid` (`define_parser!` instance in `src/de/mod.rs`). -/
def parse_uid (t : ObjectTable) (object : Nat) : Res (List Nat) :=
  runParser t object uid .ExpectedUid

/-- `ObjectTable::parse_array` from `src/de/mod.rs`. -/
def parse_array (t : ObjectTable) (object : Nat) : Res (List Nat) :=
  runParser t object (arrayP USIZE_MAX t.metadata.object_reference_size) .ExpectedArray

/-- `ObjectTable::parse_dictionary` from `src/de/mod.rs`. -/
def parse_dictionary (t : ObjectTable) (object : Nat) : Res (List (Nat × Nat)) :=
  runParser t object (dictionary USIZE_MAX t.metadata.object_reference_size)
    .ExpectedDictionary

end ObjectTable

/-- The materialized value tree produced by the walker (the callbacks of
`deserialize_any` in `src/de/mod.rs`, with Date and Uid routed through
their pseudo-struct map accesses). Floats and dates carry their raw
big-endian bit patterns; strings carry their byte or code-unit lists. -/
inductive Value where
  | boolean (b : Bool)
  | uInt8 (v : Nat)
  | uInt16 (v : Nat)
  | uInt32 (v : Nat)
  | sInt64 (v : Int)
  | float32 (bits : Nat)
  | float64 (bits : Nat)
  | data (bytes : List Nat)
  | asciiString (bytes : List Nat)
  | utf16String (units : List Nat)
  | unit
  | date (bits : Nat)
  | uid (bytes : List Nat)
  | array (elems : List Value)
  | dict (pairs : List (Value × Value))

/-- Ordered insertion into a strictly sorted ascending list: the model of
`BTreeSet::insert` for the collection stack (`src/de/mod.rs`). -/
def insertSorted (x : Nat) : List Nat → List Nat
  | [] => [x]
  | y :: ys => if x ≤ y then x :: y :: ys else y :: insertSorted x ys

/-- `ObjectDeserializer::enter_collection` from `src/de/mod.rs`: inserting
an id already present signals a cycle. -/
def enter_collection (object : Nat) (stack : List Nat) : Res (List Nat) :=
  if stack.contains object then .err .CycleDetected else .ok (insertSorted object stack)

/-- `ObjectDeserializer::exit_collection` from `src/de/mod.rs`: asserts
the stack is non-empty (panic otherwise) and removes the element returned
by `iter().next_back()` — the MAXIMUM of the set, which for the sorted
ascending list is its last element. -/
def exit_collection (stack : List Nat) : Res (List Nat) :=
  match stack with
  | [] => .panic
  | _ :: _ => .ok stack.dropLast

/-- One step of element decoding: the state is the collection stack, and a
step returns the updated stack alongside the outcome. -/
abbrev StepFun := List Nat → Nat → List Nat × Res Value

/-- `SeqAccess` for `ArraySequence` (`src/de/mod.rs`): decode each element
reference in order with the supplied step, stopping at the first error or
panic. -/
def decodeElems (step : StepFun) : List Nat → List Nat → List Nat × Res (List Value)
  | stack, [] => (stack, .ok [])
  | stack, r :: rs =>
      match step stack r with
      | (stack1, .ok v) =>
          match decodeElems step stack1 rs with
          | (stack2, .ok vs) => (stack2, .ok (v :: vs))
          | (stack2, .err e) => (stack2, .err e)
          | (stack2, .panic) => (stack2, .panic)
      | (stack1, .err e) => (stack1, .err e)
      | (stack1, .panic) => (stack1, .panic)

/-- `MapAccess` for `DictionarySequence` (`src/de/mod.rs`): for each
(key, value) reference pair decode the key then the value. -/
def decodePairs (step : StepFun) :
    List Nat → List (Nat × Nat) → List Nat × Res (List (Value × Value))
  | stack, [] => (stack, .ok [])
  | stack, (k, v) :: ps =>
      match step stack k with
      | (stack1, .ok kv) =>
          match step stack1 v with
          | (stack2, .ok vv) =>
              match decodePairs step stack2 ps with
              | (stack3, .ok pvs) => (stack3, .ok ((kv, vv) :: pvs))
              | (stack3, .err e) => (stack3, .err e)
              | (stack3, .panic) => (stack3, .panic)
          | (stack2, .err e) => (stack2, .err e)
          | (stack2, .panic) => (stack2, .panic)
      | (stack1, .err e) => (stack1, .err e)
      | (stack1, .panic) => (stack1, .panic)

/-- After a collection's children have been visited, leave the collection:
on a panic outcome the exit is never reached; otherwise `exit_collection`
runs even when the children produced an error (in `src/de/mod.rs` the
result is captured before `exit_collection` and returned after it). -/
def finishCollection (stack : List Nat) (r : Res Value) : List Nat × Res Value :=
  match r with
  | .panic => (stack, .panic)
  | r =>
      match exit_collection stack with
      | .ok stack2 => (stack2, r)
      | .err e => (stack, .err e)
      | .panic => (stack, .panic)

/-- `deserialize_any` of `ObjectDeserializer` (`src/de/mod.rs`): dispatch
on the object's format; primitives are decoded directly, Date and Uid
through their pseudo-struct adapters, and Array/Dictionary recursively
after `enter_collection`. The fuel argument bounds the recursion depth;
exhaustion is modelled as a panic and is unreachable from `from_bytes`
(the collection stack grows at every nesting level and its ids are
distinct valid object ids, so the depth never exceeds the object count
plus one). -/
def decodeObj (t : ObjectTable) : Nat → List Nat → Nat → List Nat × Res Value
  | 0, stack, _ => (stack, .panic)
  | fuel + 1, stack, object =>
      match ObjectTable.kind_of t object with
      | .err e => (stack, .err e)
      | .panic => (stack, .panic)
      | .ok format =>
          match format with
          | .Boolean =>
              match ObjectTable.parse_boolean t object with
              | .ok v => (stack, .ok (.boolean v))
              | .err e => (stack, .err e)
              | .panic => (stack, .panic)
          | .UInt8 =>
              match ObjectTable.parse_uint8 t object with
              | .ok v => (stack, .ok (.uInt8 v))
              | .err e => (stack, .err e)
              | .panic => (stack, .panic)
          | .UInt16 =>
              match ObjectTable.parse_uint16 t object with
              | .ok v => (stack, .ok (.uInt16 v))
              | .err e => (stack, .err e)
              | .panic => (stack, .panic)
          | .UInt32 =>
              match ObjectTable.parse_uint32 t object with
              | .ok v => (stack, .ok (.uInt32 v))
              | .err e => (stack, .err e)
              | .panic => (stack, .panic)
          | .SInt64 =>
              match ObjectTable.parse_sint64 t object with
              | .ok v => (stack, .ok (.sInt64 v))
              | .err e => (stack, .err e)
              | .panic => (stack, .panic)
          | .Float32 =>
              match ObjectTable.parse_float32 t object with
              | .ok v => (stack, .ok (.float32 v))
              | .err e => (stack, .err e)
              | .panic => (stack, .panic)
          | .Float64 =>
              match ObjectTable.parse_float64 t object with
              | .ok v => (stack, .ok (.float64 v))
              | .err e => (stack, .err e)
              | .panic => (stack, .panic)
          | .Data =>
              match ObjectTable.parse_data t object with
              | .ok v => (stack, .ok (.data v))
              | .err e => (stack, .err e)
              | .panic => (stack, .panic)
          | .AsciiString =>
              match ObjectTable.parse_ascii_string t object with
              | .ok v => (stack, .ok (.asciiString v))
              | .err e => (stack, .err e)
              | .panic => (stack, .panic)
          | .Utf16String =>
              match ObjectTable.parse_utf16_string t object with
              | .ok v => (stack, .ok (.utf16String v))
              | .err e => (stack, .err e)
              | .panic => (stack, .panic)
          | .Fill =>
              match ObjectTable.parse_fill t object with
              | .ok _ => (stack, .ok .unit)
              | .err e => (stack, .err e)
              | .panic => (stack, .panic)
          | .Date =>
              match ObjectTable.parse_date t object with
              | .ok v => (stack, .ok (.date v))
              | .err e => (stack, .err e)
              | .panic => (stack, .panic)
          | .Uid =>
              match ObjectTable.parse_uid t object with
              | .ok v => (stack, .ok (.uid v))
              | .err e => (stack, .err e)
              | .panic => (stack, .panic)
          | .Array =>
              match ObjectTable.parse_array t object with
              | .err e => (stack, .err e)
              | .panic => (stack, .panic)
              | .ok objects =>
                  match enter_collection object stack with
                  | .err e => (stack, .err e)
                  | .panic => (stack, .panic)
                  | .ok stack1 =>
                      match decodeElems (fun s o => decodeObj t fuel s o) stack1 objects with
                      | (stack2, .ok vs) => finishCollection stack2 (.ok (.array vs))
                      | (stack2, .err e) => finishCollection stack2 (.err e)
                      | (stack2, .panic) => (stack2, .panic)
          | .Dictionary =>
              match ObjectTable.parse_dictionary t object with
              | .err e => (stack, .err e)
              | .panic => (stack, .panic)
              | .ok pairs =>
                  match enter_collection object stack with
                  | .err e => (stack, .err e)
                  | .panic => (stack, .panic)
                  | .ok stack1 =>
                      match decodePairs (fun s o => decodeObj t fuel s o) stack1 pairs with
                      | (stack2, .ok pvs) => finishCollection stack2 (.ok (.dict pvs))
                      | (stack2, .err e) => finishCollection stack2 (.err e)
                      | (stack2, .panic) => (stack2, .panic)

/-- `from_bytes` / `Deserializer::deserialize_any` from `src/de/mod.rs`:
parse the metadata, verify the root object is an Array or a Dictionary,
and walk the tree from the root. The walker fuel `number_of_objects + 2`
strictly exceeds the maximal nesting depth. -/
def from_bytes (input : List Nat) : Res Value :=
  match parse_metadata input with
  | .err e => .err e
  | .panic => .panic
  | .ok metadata =>
      let t : ObjectTable := ⟨input, metadata⟩
      let root := metadata.root_object
      match ObjectTable.kind_of t root with
      | .err e => .err e
      | .panic => .panic
      | .ok format =>
          if format = .Array ∨ format = .Dictionary then
            (decodeObj t (metadata.offset_table.length + 2) [] root).2
          else .err .RootObjectNotArrayOrDictionary

/-- Big-endian encoding of `k` into `n` bytes (the inverse image used to
state wire-layout theorems). -/
def encBE : Nat → Nat → List Nat
  | 0, _ => []
  | n + 1, k => encBE n (k / 256) ++ [k % 256]

/-- The concatenated `n`-byte big-endian encodings of a reference list. -/
def encRefs (n : Nat) (ks : List Nat) : List Nat :=
  (ks.map (encBE n)).flatten

def doc36 : List Nat :=
  [0x62, 0x70, 0x6C, 0x69, 0x73, 0x74, 0x30, 0x30,
   0xA0, 0x08,
   0x00, 0x00, 0x00, 0x00, 0x00, 0x00, 0x00, 0x00, 0x01, 0x01,
   0x00, 0x00, 0x00, 0x00, 0x00, 0x00, 0x00, 0x01,
   0x00, 0x00, 0x00, 0x00, 0x00, 0x00, 0x00, 0x09]

def doc42 : List Nat :=
  [0x62, 0x70, 0x6C, 0x69, 0x73, 0x74, 0x30, 0x30,
   0xA0,
   0x08,
   0x00, 0x00, 0x00, 0x00, 0x00,
   0x00, 0x01, 0x01,
   0x00, 0x00, 0x00, 0x00, 0x00, 0x00, 0x00, 0x01,
   0x00, 0x00, 0x00, 0x00, 0x00, 0x00, 0x00, 0x00,
   0x00, 0x00, 0x00, 0x00, 0x00, 0x00, 0x00, 0x09]

def docDag : List Nat :=
  [0x62, 0x70, 0x6C, 0x69, 0x73, 0x74, 0x30, 0x30,
   0xA0,
   0xA2, 0x00, 0x00,
   0x08, 0x09,
   0x00, 0x00, 0x00, 0x00, 0x00,
   0x00, 0x01, 0x01,
   0x00, 0x00, 0x00, 0x00, 0x00, 0x00, 0x00, 0x02,
   0x00, 0x00, 0x00, 0x00, 0x00, 0x00, 0x00, 0x01,
   0x00, 0x00, 0x00, 0x00, 0x00, 0x00, 0x00, 0x0C]

def docDagTable : ObjectTable := ⟨docDag, ⟨[8, 9], 1, 1, 8, 12⟩⟩

def docUtf16Bad : List Nat :=
  [0x62, 0x70, 0x6C, 0x69, 0x73, 0x74, 0x30, 0x30,
   0xA1, 0x01,
   0x61, 0xD8, 0x00,
   0x08, 0x0A,
   0x00, 0x00, 0x00, 0x00, 0x00,
   0x00, 0x01, 0x01,
   0x00, 0x00, 0x00, 0x00, 0x00, 0x00, 0x00, 0x02,
   0x00, 0x00, 0x00, 0x00, 0x00, 0x00, 0x00, 0x00,
   0x00, 0x00, 0x00, 0x00, 0x00, 0x00, 0x00, 0x0D]

def docUtf16BadTable : ObjectTable := ⟨docUtf16Bad, ⟨[8, 10], 1, 0, 8, 13⟩⟩

def docBadBeforeSelf : List Nat :=
  [0x62, 0x70, 0x6C, 0x69, 0x73, 0x74, 0x30, 0x30,
   0xA2, 0x01, 0x00,
   0x01,
   0x08, 0x0B,
   0x00, 0x00, 0x00, 0x00, 0x00,
   0x00, 0x01, 0x01,
   0x00, 0x00, 0x00, 0x00, 0x00, 0x00, 0x00, 0x02,
   0x00, 0x00, 0x00, 0x00, 0x00, 0x00, 0x00, 0x00,
   0x00, 0x00, 0x00, 0x00, 0x00, 0x00, 0x00, 0x0C]

def docBadBeforeSelfTable : ObjectTable := ⟨docBadBeforeSelf, ⟨[8, 11], 1, 0, 8, 12⟩⟩

def docOverflow : List Nat :=
  [0x62, 0x70, 0x6C, 0x69, 0x73, 0x74, 0x30, 0x30,
   0xA0, 0x08,
   0x00, 0x00, 0x00, 0x00, 0x00,
   0x00, 0x01, 0x01,
   0xFF, 0xFF, 0xFF, 0xFF, 0xFF, 0xFF, 0xFF, 0xFF,
   0x00, 0x00, 0x00, 0x00, 0x00, 0x00, 0x00, 0x00,
   0x00, 0x00, 0x00, 0x00, 0x00, 0x00, 0x00, 0x09]

def docEntryZero : List Nat :=
  [0x62, 0x70, 0x6C, 0x69, 0x73, 0x74, 0x30, 0x30,
   0xA0, 0x00,
   0x00, 0x00, 0x00, 0x00, 0x00,
   0x00, 0x00, 0x01,
   0x00, 0x00, 0x00, 0x00, 0x00, 0x00, 0x00, 0x01,
   0x00, 0x00, 0x00, 0x00, 0x00, 0x00, 0x00, 0x00,
   0x00, 0x00, 0x00, 0x00, 0x00, 0x00, 0x00, 0x0A]

def docRefSize9 : List Nat :=
  [0x62, 0x70, 0x6C, 0x69, 0x73, 0x74, 0x30, 0x30,
   0xA0, 0x08,
   0x00, 0x00, 0x00, 0x00, 0x00,
   0x00, 0x01, 0x09,
   0x00, 0x00, 0x00, 0x00, 0x00, 0x00, 0x00, 0x01,
   0x00, 0x00, 0x00, 0x00, 0x00, 0x00, 0x00, 0x00,
   0x00, 0x00, 0x00, 0x00, 0x00, 0x00, 0x00, 0x09]

def docOffsetHuge : List Nat :=
  [0x62, 0x70, 0x6C, 0x69, 0x73, 0x74, 0x30, 0x30,
   0xA0, 0x08,
   0x00, 0x00, 0x00, 0x00, 0x00,
   0x00, 0x01, 0x01,
   0x00, 0x00, 0x00, 0x00, 0x00, 0x00, 0x00, 0x01,
   0x00, 0x00, 0x00, 0x00, 0x00, 0x00, 0x00, 0x00,
   0xFF, 0xFF, 0xFF, 0xFF, 0xFF, 0xFF, 0xFF, 0xFF]

def docEof30 : List Nat := List.replicate 30 0

def docZero42 : List Nat := List.replicate 42 0

def docVersion15 : List Nat :=
  [0x62, 0x70, 0x6C, 0x69, 0x73, 0x74, 0x31, 0x35] ++ List.replicate 34 0

def docRootTooBig : List Nat :=
  [0x62, 0x70, 0x6C, 0x69, 0x73, 0x74, 0x30, 0x30] ++ List.replicate 34 0

def docTableTooFar : List Nat :=
  [0x62, 0x70, 0x6C, 0x69, 0x73, 0x74, 0x30, 0x30,
   0xA0, 0x08,
   0x00, 0x00, 0x00, 0x00, 0x00,
   0x00, 0x01, 0x01,
   0x00, 0x00, 0x00, 0x00, 0x00, 0x00, 0x00, 0x01,
   0x00, 0x00, 0x00, 0x00, 0x00, 0x00, 0x00, 0x00,
   0x00, 0x00, 0x00, 0x00, 0x00, 0x00, 0x00, 0x0B]

def docRefOut : List Nat :=
  [0x62, 0x70, 0x6C, 0x69, 0x73, 0x74, 0x30, 0x30,
   0xA1, 0x01,
   0x08,
   0x00, 0x00, 0x00, 0x00, 0x00,
   0x00, 0x01, 0x01,
   0x00, 0x00, 0x00, 0x00, 0x00, 0x00, 0x00, 0x01,
   0x00, 0x00, 0x00, 0x00, 0x00, 0x00, 0x00, 0x00,
   0x00, 0x00, 0x00, 0x00, 0x00, 0x00, 0x00, 0x0A]

def docRefOutTable : ObjectTable := ⟨docRefOut, ⟨[8], 1, 0, 8, 10⟩⟩

def docSelfRef : List Nat :=
  [0x62, 0x70, 0x6C, 0x69, 0x73, 0x74, 0x30, 0x30,
   0xA1, 0x00,
   0x08,
   0x00, 0x00, 0x00, 0x00, 0x00,
   0x00, 0x01, 0x01,
   0x00, 0x00, 0x00, 0x00, 0x00, 0x00, 0x00, 0x01,
   0x00, 0x00, 0x00, 0x00, 0x00, 0x00, 0x00, 0x00,
   0x00, 0x00, 0x00, 0x00, 0x00, 0x00, 0x00, 0x0A]

theorem payload_count_small (M v : Nat) (input : List Nat) (h : v ≤ 14) :
    payload_count M v input = .ok input v := by
  interval_cases v <;> rfl

theorem marker_asciiString (v : Nat) (rest : List Nat) (h : v ≤ 15) :
    marker .AsciiString ((0x50 + v) :: rest) = .ok rest (.AsciiString, v) := by
  interval_cases v <;> rfl

theorem marker_dictionary (v : Nat) (rest : List Nat) (h : v ≤ 15) :
    marker .Dictionary ((0xD0 + v) :: rest) = .ok rest (.Dictionary, v) := by
  interval_cases v <;> rfl

theorem foldl_be (bs : List Nat) (acc : Nat) :
    bs.foldl (fun acc x => acc * 256 + x) acc =
      acc * 256 ^ bs.length + bs.foldl (fun acc x => acc * 256 + x) 0 := by
  induction bs generalizing acc with
  | nil => simp
  | cons b bs ih =>
      simp only [List.foldl_cons, List.length_cons]
      rw [ih (acc * 256 + b), ih (0 * 256 + b)]
      ring

theorem beNat_cons (b : Nat) (bs : List Nat) :
    beNat (b :: bs) = b * 256 ^ bs.length + beNat bs := by
  simp only [beNat, List.foldl_cons]
  rw [foldl_be bs (0 * 256 + b)]
  norm_num

theorem beNat_lt (bs : List Nat) (h : ∀ b ∈ bs, b < 256) :
    beNat bs < 256 ^ bs.length := by
  induction bs with
  | nil => simp [beNat]
  | cons b bs ih =>
      rw [beNat_cons]
      have hb : b < 256 := h b (by simp)
      have hrec := ih (fun x hx => h x (by simp [hx]))
      have hpow : 256 ^ (b :: bs).length = 256 * 256 ^ bs.length := by
        simp [List.length_cons]; ring
      rw [hpow]
      nlinarith

theorem i64AsU64_round (v : Nat) (h : v < 2 ^ 64) :
    i64AsU64 (if v < 2 ^ 63 then (v : Int) else (v : Int) - (W64 : Int)) = v := by
  unfold i64AsU64 W64
  split <;> omega

theorem encBE_length (n k : Nat) : (encBE n k).length = n := by
  induction n generalizing k with
  | zero => rfl
  | succ n ih => simp [encBE, ih]

theorem beNat_append_single (bs : List Nat) (b : Nat) :
    beNat (bs ++ [b]) = beNat bs * 256 + b := by
  simp [beNat, List.foldl_append]

theorem beNat_encBE (n k : Nat) (h : k < 256 ^ n) : beNat (encBE n k) = k := by
  induction n generalizing k with
  | zero => simp [encBE, beNat]; omega
  | succ n ih =>
      simp only [encBE, beNat_append_single]
      rw [ih (k / 256) (by rw [pow_succ] at h; omega)]
      omega

theorem takeP_append (n : Nat) (l1 l2 : List Nat) (h : l1.length = n) :
    takeP n (l1 ++ l2) = .ok l2 l1 := by
  unfold takeP
  rw [if_pos (by simp [List.length_append, h])]
  rw [List.take_left' h, List.drop_left' h]

theorem be_usize_enc (M n k : Nat) (rest : List Nat)
    (h1 : 1 ≤ n) (h2 : n ≤ 8) (hk : k < 256 ^ n) (hM : k ≤ M) :
    be_usize_n M n (encBE n k ++ rest) = .ok rest k := by
  unfold be_usize_n be_u64_n
  rw [if_pos ⟨h1, h2⟩, takeP_append n (encBE n k) rest (encBE_length n k)]
  simp [beNat_encBE n k hk, hM]

theorem countP_encRefs (M n : Nat) (ks tail : List Nat)
    (h1 : 1 ≤ n) (h2 : n ≤ 8) (hk : ∀ k ∈ ks, k < 256 ^ n ∧ k ≤ M) :
    countP (be_usize_n M n) ks.length (encRefs n ks ++ tail) = .ok tail ks := by
  induction ks with
  | nil => simp [encRefs, countP]
  | cons k ks ih =>
      have hKk := hk k (by simp)
      have ih' := ih (fun x hx => hk x (by simp [hx]))
      simp only [encRefs, List.map_cons, List.flatten_cons, List.length_cons, countP]
      rw [List.append_assoc, be_usize_enc M n k _ h1 h2 hKk.1 hKk.2]
      simp only [encRefs] at ih'
      simp [ih']

theorem land_19_255 : ((19 : Nat) &&& 255) = 19 := by rfl

theorem land_19_0 : ((19 : Nat) &&& 0) = 0 := by rfl

theorem land_15_240 : ((15 : Nat) &&& 240) = 0 := by rfl

theorem land_16_255 : ((16 : Nat) &&& 255) = 16 := by rfl

theorem land_16_0 : ((16 : Nat) &&& 0) = 0 := by rfl

theorem land_17_255 : ((17 : Nat) &&& 255) = 17 := by rfl
theorem land_18_255 : ((18 : Nat) &&& 255) = 18 := by rfl
theorem land_17_0 : ((17 : Nat) &&& 0) = 0 := by rfl
theorem land_18_0 : ((18 : Nat) &&& 0) = 0 := by rfl

theorem payload_count_u16 :
    ∀ (M : Nat) (bytes rest : List Nat), bytes.length = 2 →
      payload_count M 15 (0x11 :: (bytes ++ rest)) =
        if beNat bytes ≤ M then .ok rest (beNat bytes) else .fail := by
  intro M bytes rest hlen
  simp only [payload_count, intObjectU64, uint8, uint16, marker, be_u8P, be_u16P,
    ObjectFormat.tag_mask, ObjectFormat.tag_bits, ObjectFormat.value_mask,
    land_17_255, land_17_0, land_15_240]
  norm_num
  rw [takeP_append 2 bytes rest hlen]

theorem payload_count_u32 :
    ∀ (M : Nat) (bytes rest : List Nat), bytes.length = 4 →
      payload_count M 15 (0x12 :: (bytes ++ rest)) =
        if beNat bytes ≤ M then .ok rest (beNat bytes) else .fail := by
  intro M bytes rest hlen
  simp only [payload_count, intObjectU64, uint8, uint16, uint32, marker, be_u8P,
    be_u16P, be_u32P, ObjectFormat.tag_mask, ObjectFormat.tag_bits,
    ObjectFormat.value_mask, land_18_255, land_18_0, land_15_240]
  norm_num
  rw [takeP_append 4 bytes rest hlen]

theorem countP_length {α : Type} (p : List Nat → PRes α) :
    ∀ (n : Nat) (input rest : List Nat) (vs : List α),
      countP p n input = .ok rest vs → vs.length = n := by
  intro n
  induction n with
  | zero =>
      intro input rest vs h
      simp only [countP] at h
      injection h with h1 h2
      rw [← h2]
      rfl
  | succ n ih =>
      intro input rest vs h
      simp only [countP] at h
      split at h
      rotate_left
      · cases h
      · cases h
      split at h
      rotate_left
      · cases h
      · cases h
      injection h with h1 h2
      subst h2
      simp only [List.length_cons]
      have hlen := ih _ _ _ (by assumption)
      omega

/-- Claim C6: count encoding for variable-payload kinds. Inline values up to 14
are the count and consume nothing; value 15 consumes an inline integer
object; a SInt64 integer object is reinterpreted as unsigned
(`value as u64`), and the result is range-checked against the platform
word maximum. -/
theorem C6_payload_count_encoding :
    (∀ (M v : Nat) (input : List Nat), v ≤ 14 →
       payload_count M v input = .ok input v) ∧
    (∀ (M b : Nat) (rest : List Nat),
       payload_count M 15 (0x10 :: b :: rest) =
         if b ≤ M then .ok rest b else .fail) ∧
    (∀ (M : Nat) (bytes rest : List Nat), bytes.length = 2 →
       payload_count M 15 (0x11 :: (bytes ++ rest)) =
         if beNat bytes ≤ M then .ok rest (beNat bytes) else .fail) ∧
    (∀ (M : Nat) (bytes rest : List Nat), bytes.length = 4 →
       payload_count M 15 (0x12 :: (bytes ++ rest)) =
         if beNat bytes ≤ M then .ok rest (beNat bytes) else .fail) ∧
    (∀ (M : Nat) (bytes rest : List Nat), bytes.length = 8 → (∀ b ∈ bytes, b < 256) →
       payload_count M 15 (0x13 :: (bytes ++ rest)) =
         if beNat bytes ≤ M then .ok rest (beNat bytes) else .fail) := by
  refine ⟨payload_count_small, ?_, payload_count_u16, payload_count_u32, ?_⟩
  · intro M b rest
    simp only [payload_count, intObjectU64, uint8, marker, be_u8P,
      ObjectFormat.tag_mask, ObjectFormat.tag_bits, ObjectFormat.value_mask,
      land_16_255, land_16_0, land_15_240, reduceIte]
    norm_num
  · intro M bytes rest hlen hbytes
    have hlt : beNat bytes < 2 ^ 64 := by
      have := beNat_lt bytes hbytes
      rw [hlen] at this
      norm_num at this
      omega
    simp only [payload_count, intObjectU64, uint8, uint16, uint32, sint64, marker,
      be_i64P, ObjectFormat.tag_mask, ObjectFormat.tag_bits, ObjectFormat.value_mask,
      land_19_255, land_19_0, land_15_240, reduceIte]
    norm_num
    rw [takeP_append 8 bytes rest hlen]
    norm_num
    rw [show (9223372036854775808 : Nat) = 2 ^ 63 by norm_num]
    simp only [i64AsU64_round (beNat bytes) hlt]

/-- Claim C6 witness: concrete instances of all three parts. -/
theorem C6_payload_count_encoding_witness :
    payload_count 100 14 [1, 2] = .ok [1, 2] 14 ∧
    payload_count 300 15 (0x10 :: 255 :: [9]) =
      (if 255 ≤ 300 then .ok [9] 255 else .fail) ∧
    payload_count 300 15 (0x11 :: ([0x01, 0x00] ++ [9])) =
      (if beNat [0x01, 0x00] ≤ 300 then .ok [9] (beNat [0x01, 0x00]) else .fail) ∧
    payload_count 300 15 (0x12 :: ([0x00, 0x00, 0x01, 0x00] ++ [9])) =
      (if beNat [0x00, 0x00, 0x01, 0x00] ≤ 300 then
        .ok [9] (beNat [0x00, 0x00, 0x01, 0x00]) else .fail) ∧
    payload_count USIZE_MAX 15
        (0x13 :: ([0xFF, 0xFF, 0xFF, 0xFF, 0xFF, 0xFF, 0xFF, 0xFF] ++ [7])) =
      (if beNat [0xFF, 0xFF, 0xFF, 0xFF, 0xFF, 0xFF, 0xFF, 0xFF] ≤ USIZE_MAX then
        .ok [7] (beNat [0xFF, 0xFF, 0xFF, 0xFF, 0xFF, 0xFF, 0xFF, 0xFF]) else .fail) := by
  refine ⟨?_, ?_, ?_, ?_, ?_⟩
  · exact C6_payload_count_encoding.1 100 14 [1, 2] (by decide)
  · exact C6_payload_count_encoding.2.1 300 255 [9]
  · exact C6_payload_count_encoding.2.2.1 300 [0x01, 0x00] [9] (by decide)
  · exact C6_payload_count_encoding.2.2.2.1 300 [0x00, 0x00, 0x01, 0x00] [9] (by decide)
  · exact C6_payload_count_encoding.2.2.2.2 USIZE_MAX _ [7] (by decide) (by decide)

/-- Claim C8: a dictionary object is the count followed by exactly `n` key
references and then, contiguously, exactly `n` value references, paired
positionally. -/
theorem C8_dictionary_layout :
    ∀ (M ors v : Nat) (rest mid tail : List Nat) (n : Nat) (keys vals : List Nat),
      1 ≤ ors → ors ≤ 8 → v ≤ 15 →
      payload_count M v rest = .ok mid n →
      keys.length = n → vals.length = n →
      (∀ k ∈ keys, k < 256 ^ ors ∧ k ≤ M) →
      (∀ k ∈ vals, k < 256 ^ ors ∧ k ≤ M) →
      mid = encRefs ors keys ++ (encRefs ors vals ++ tail) →
      dictionary M ors ((0xD0 + v) :: rest) = .ok tail (keys.zip vals) := by
  intro M ors v rest mid tail n keys vals h1 h8 hv hpc hkl hvl hkb hvb hmid
  subst hmid
  subst hkl
  simp only [dictionary]
  rw [if_neg (by omega), marker_dictionary v rest hv]
  simp only [hpc]
  rw [countP_encRefs M ors keys (encRefs ors vals ++ tail) h1 h8 hkb]
  have hc2 := countP_encRefs M ors vals tail h1 h8 hvb
  rw [hvl] at hc2
  simp only [hc2]

/-- Claim C8 witness: the dictionary `{0: 2, 1: 3}` with two 1-byte references,
matching the crate's own unit test vector. -/
theorem C8_dictionary_layout_witness :
    dictionary USIZE_MAX 1 [0xD2, 0x00, 0x01, 0x02, 0x03] = .ok [] [(0, 2), (1, 3)] := by
  have h := C8_dictionary_layout USIZE_MAX 1 2 [0x00, 0x01, 0x02, 0x03]
    [0x00, 0x01, 0x02, 0x03] [] 2 [0, 1] [2, 3]
    (by decide) (by decide) (by decide) (by rfl) (by decide) (by decide)
    (by decide) (by decide) (by rfl)
  exact h

/-- Claim C9: every successfully parsed ASCII string contains only bytes at most
`0x7F`; a payload containing a byte above `0x7F` makes the parser fail, and
the object table surfaces that failure as `ExpectedAsciiString`. -/
theorem C9_ascii_only_7bit :
    (∀ (M : Nat) (input rest s : List Nat),
       ascii_string M input = .ok rest s → ∀ b ∈ s, b ≤ 0x7F) ∧
    (∀ (M v : Nat) (bytes rest : List Nat), v ≤ 14 → bytes.length = v →
       (∃ b ∈ bytes, 0x7F < b) →
       ascii_string M ((0x50 + v) :: (bytes ++ rest)) = .fail) ∧
    (∀ (t : ObjectTable) (object : Nat) (data : List Nat),
       ObjectTable.data_for t object = .ok data →
       ascii_string USIZE_MAX data = .fail →
       ObjectTable.parse_ascii_string t object = .err .ExpectedAsciiString) := by
  refine ⟨?_, ?_, ?_⟩
  · intro M input rest s h
    simp only [ascii_string] at h
    split at h
    rotate_left
    · cases h
    · cases h
    split at h
    rotate_left
    · cases h
    · cases h
    split at h
    rotate_left
    · cases h
    · cases h
    split at h
    · next hall =>
        injection h with h1 h2
        subst h2
        intro b hb
        simpa using (List.all_eq_true.mp hall b hb)
    · cases h
  · intro M v bytes rest hv hlen hex
    simp only [ascii_string, marker_asciiString v (bytes ++ rest) (by omega),
      payload_count_small M v (bytes ++ rest) hv, takeP_append v bytes rest hlen]
    obtain ⟨b, hb, hgt⟩ := hex
    rw [if_neg]
    intro hall
    have := List.all_eq_true.mp hall b hb
    simp at this
    omega
  · intro t object data hdata hfail
    simp only [ObjectTable.parse_ascii_string, ObjectTable.runParser, hdata, hfail]

/-- Claim C9 witness: a clean parse, a rejected high byte, and the surfaced
`ExpectedAsciiString` error on a one-object table. -/
theorem C9_ascii_only_7bit_witness :
    (∀ b ∈ [0x41], b ≤ 0x7F) ∧
    ascii_string 100 [0x51, 0x80] = .fail ∧
    ObjectTable.parse_ascii_string
        ⟨[0, 0, 0, 0, 0, 0, 0, 0, 0x51, 0x80], ⟨[8], 1, 0, 8, 10⟩⟩ 0 =
      .err .ExpectedAsciiString := by
  refine ⟨?_, ?_, ?_⟩
  · exact C9_ascii_only_7bit.1 100 [0x51, 0x41] [] [0x41] (by rfl)
  · exact C9_ascii_only_7bit.2.1 100 1 [0x80] [] (by decide) (by rfl)
      ⟨0x80, by decide, by decide⟩
  · exact C9_ascii_only_7bit.2.2 _ 0 [0x51, 0x80] (by rfl) (by rfl)

/-- Claim C3, amended: the metadata pipeline checks in order, where the
offset-table extent is computed with the wrap-around `usize` arithmetic
the code actually performs. -/
theorem C3_metadata_pipeline :
    (∀ input : List Nat, input.length < 42 → parse_metadata input = .err .Eof) ∧
    (∀ input : List Nat, 42 ≤ input.length → input.take 6 ≠ HEADER_MAGIC_NUMBER →
       parse_metadata input = .err .MissingOrInvalidHeader) ∧
    (∀ (input r : List Nat) (h : Header), 42 ≤ input.length →
       headerP (input.take 8) = .ok r h → h.version ≠ (0x30, 0x30) →
       parse_metadata input = .err .UnsupportedVersion) ∧
    (∀ (input r r2 : List Nat) (h : Header) (tr : Trailer), 42 ≤ input.length →
       headerP (input.take 8) = .ok r h → h.version = (0x30, 0x30) →
       trailerP (input.drop (input.length - 32)) = .ok r2 tr →
       tr.number_of_objects ≤ tr.root_object →
       parse_metadata input = .err .InvalidRootObject) ∧
    (∀ (input r r2 : List Nat) (h : Header) (tr : Trailer), 42 ≤ input.length →
       headerP (input.take 8) = .ok r h → h.version = (0x30, 0x30) →
       trailerP (input.drop (input.length - 32)) = .ok r2 tr →
       tr.root_object < tr.number_of_objects →
       input.length - 32 <
         (tr.offset_table_offset +
           tr.number_of_objects * tr.offset_table_entry_size % W64) % W64 →
       parse_metadata input = .err .MissingOrInvalidOffsetTable) := by
  refine ⟨?_, ?_, ?_, ?_, ?_⟩
  · intro input hlen
    simp only [parse_metadata, HEADER_SIZE, TRAILER_SIZE]
    rw [if_pos (by omega)]
  · intro input hlen hmagic
    have hfail : headerP (input.take 8) = .fail := by
      simp only [headerP, tagP]
      rw [if_neg]
      rw [List.take_take]
      simpa using hmagic
    simp only [parse_metadata, HEADER_SIZE, TRAILER_SIZE]
    rw [if_neg (by omega)]
    simp only [hfail]
  · intro input r h hlen hhdr hver
    simp only [parse_metadata, HEADER_SIZE, TRAILER_SIZE]
    rw [if_neg (by omega)]
    simp only [hhdr]
    rw [if_pos (by simpa [HEADER_VERSION_00] using hver)]
  · intro input r r2 h tr hlen hhdr hver htr hroot
    simp only [parse_metadata, HEADER_SIZE, TRAILER_SIZE]
    rw [if_neg (by omega)]
    simp only [hhdr]
    rw [if_neg (by simp [HEADER_VERSION_00, hver])]
    simp only [htr]
    rw [if_pos (by omega)]
  · intro input r r2 h tr hlen hhdr hver htr hroot hfit
    simp only [parse_metadata, HEADER_SIZE, TRAILER_SIZE]
    rw [if_neg (by omega)]
    simp only [hhdr]
    rw [if_neg (by simp [HEADER_VERSION_00, hver])]
    simp only [htr]
    rw [if_neg (by omega)]
    rw [if_pos (by omega)]

/-- Claim C5, amended: any document whose root Array starts with a reference to
itself decodes to `CycleDetected`: the id is re-entered while still on the
enter-collection stack. -/
theorem C5_root_self_reference_cycle :
    ∀ (input : List Nat) (md : Metadata) (rest : List Nat),
      parse_metadata input = .ok md →
      ObjectTable.kind_of ⟨input, md⟩ md.root_object = .ok .Array →
      ObjectTable.parse_array ⟨input, md⟩ md.root_object =
        .ok (md.root_object :: rest) →
      from_bytes input = .err .CycleDetected := by
  intro input md rest hmd hkind harr
  simp only [from_bytes, hmd, hkind]
  rw [if_pos (by simp)]
  rw [show md.offset_table.length + 2 = md.offset_table.length + 1 + 1 from rfl]
  simp only [decodeObj, hkind, harr, enter_collection, decodeElems, insertSorted,
    finishCollection, exit_collection]
  simp

/-- Claim C5 witness: the 43-byte document whose root Array's single element is a
reference to the root itself fails with `CycleDetected`. -/
theorem C5_root_self_reference_cycle_witness :
    from_bytes docSelfRef = .err .CycleDetected := by
  exact C5_root_self_reference_cycle docSelfRef ⟨[8], 1, 0, 8, 10⟩ []
    (by rfl) (by rfl) (by rfl)

theorem parse_metadata_offset_table_length :
    ∀ (input r2 : List Nat) (md : Metadata) (tr : Trailer),
      parse_metadata input = .ok md →
      trailerP (input.drop (input.length - TRAILER_SIZE)) = .ok r2 tr →
      md.offset_table.length = tr.number_of_objects := by
  intro input r2 md tr hmd htr
  simp only [parse_metadata] at hmd
  split at hmd
  · cases hmd
  split at hmd
  · cases hmd
  · cases hmd
  split at hmd
  · cases hmd
  rw [htr] at hmd
  split at hmd
  · cases hmd
  · cases hmd
  next r2x trx heqTr =>
    injection heqTr with h1 h2
    subst h2
    split at hmd
    · cases hmd
    split at hmd
    · cases hmd
    split at hmd
    · cases hmd
    · cases hmd
    split at hmd
    · cases hmd
    · cases hmd
    next rest3 offTable heqT =>
      simp only [offset_tableP] at heqT
      injection hmd with h3
      rw [← h3]
      exact countP_length _ _ _ _ _ heqT

/-- Claim C7: `data_for` errors with `InvalidObjectReference` exactly on ids
at or beyond the offset-table length — which equals the trailer's
`number_of_objects` for every successfully parsed metadata — with
`InvalidOffsetToObject` exactly on valid ids whose offset leaves the
object-table range, and otherwise returns the unbounded input suffix at
the offset; consequently the out-of-range array element reference in the
concrete document fails with `InvalidObjectReference`. -/
theorem C7_data_for_characterization :
    (∀ (t : ObjectTable) (i : Nat),
       (ObjectTable.data_for t i = .err .InvalidObjectReference ↔
          t.metadata.offset_table.length ≤ i) ∧
       (ObjectTable.data_for t i = .err .InvalidOffsetToObject ↔
          (i < t.metadata.offset_table.length ∧
           ¬ (t.metadata.rangeStart ≤ t.metadata.offset_table.getD i 0 ∧
              t.metadata.offset_table.getD i 0 < t.metadata.rangeEnd))) ∧
       ((i < t.metadata.offset_table.length ∧
         t.metadata.rangeStart ≤ t.metadata.offset_table.getD i 0 ∧
         t.metadata.offset_table.getD i 0 < t.metadata.rangeEnd) →
         ObjectTable.data_for t i =
           .ok (t.input.drop (t.metadata.offset_table.getD i 0)))) ∧
    (∀ (input r2 : List Nat) (md : Metadata) (tr : Trailer),
       parse_metadata input = .ok md →
       trailerP (input.drop (input.length - TRAILER_SIZE)) = .ok r2 tr →
       md.offset_table.length = tr.number_of_objects) ∧
    from_bytes docRefOut = .err .InvalidObjectReference := by
  refine ⟨?_, parse_metadata_offset_table_length, rfl⟩
  intro t i
  by_cases h1 : t.metadata.offset_table.length ≤ i
  · have hd : ObjectTable.data_for t i = .err .InvalidObjectReference := by
      simp [ObjectTable.data_for, ObjectTable.offset_of, h1]
    refine ⟨by simp [hd, h1], ?_, ?_⟩
    · rw [hd]
      constructor
      · intro hcon
        simp at hcon
      · intro hcon
        exact absurd hcon.1 (by omega)
    · intro hcon
      exact absurd hcon.1 (by omega)
  · by_cases h2 : t.metadata.rangeStart ≤ t.metadata.offset_table.getD i 0 ∧
        t.metadata.offset_table.getD i 0 < t.metadata.rangeEnd
    · have hd : ObjectTable.data_for t i =
          .ok (t.input.drop (t.metadata.offset_table.getD i 0)) := by
        simp [ObjectTable.data_for, ObjectTable.offset_of, h1,
          ← List.getD_eq_getElem?_getD, h2]
      refine ⟨by simp [hd, h1], ?_, fun _ => hd⟩
      rw [hd]
      constructor
      · intro hcon
        simp at hcon
      · intro hcon
        exact absurd h2 hcon.2
    · have hd : ObjectTable.data_for t i = .err .InvalidOffsetToObject := by
        simp [ObjectTable.data_for, ObjectTable.offset_of,
          ← List.getD_eq_getElem?_getD, h1, h2]
      refine ⟨?_, ?_, ?_⟩
      · rw [hd]
        constructor
        · intro hcon
          simp at hcon
        · intro hcon
          exact absurd hcon (by omega)
      · rw [hd]
        exact ⟨fun _ => ⟨by omega, h2⟩, fun _ => rfl⟩
      · intro hcon
        exact absurd ⟨hcon.2.1, hcon.2.2⟩ h2

/-- Claim C1: the acyclic document (root object 1 is the array `[0, 0]`, object 0
is an empty array — DAG sharing, no cycle) is nonetheless rejected with
`CycleDetected`, because `exit_collection` removes the maximum id from the
set instead of the most recently entered one. -/
theorem C1_dag_sharing_rejected :
    parse_metadata docDag = .ok docDagTable.metadata ∧
    ObjectTable.parse_array docDagTable 1 = .ok [0, 0] ∧
    ObjectTable.parse_array docDagTable 0 = .ok [] ∧
    from_bytes docDag = .err .CycleDetected :=
  ⟨rfl, rfl, rfl, rfl⟩

/-- Claim C2 counterexample: the spec's literal 36-byte input is shorter than the
minimum envelope, so decoding fails with `Eof` instead of succeeding. -/
theorem C2_spec_input_is_eof : from_bytes doc36 = .err .Eof := rfl

/-- Claim C2, amended: the corrected 42-byte minimal empty-array document
decodes successfully to an empty sequence. -/
theorem C2_minimal_empty_array : from_bytes doc42 = .ok (.array []) := rfl

/-- Claim C4: a Utf16String object whose payload is malformed (an unpaired high
surrogate) is surfaced as `ExpectedAsciiString`, not `ExpectedUtf16String`:
the `define_parser!` instantiation for `parse_utf16_string` names the wrong
error variant. -/
theorem C4_utf16_error_is_ascii :
    parse_metadata docUtf16Bad = .ok docUtf16BadTable.metadata ∧
    ObjectTable.kind_of docUtf16BadTable 1 = .ok .Utf16String ∧
    ObjectTable.parse_utf16_string docUtf16BadTable 1 = .err .ExpectedAsciiString ∧
    from_bytes docUtf16Bad = .err .ExpectedAsciiString :=
  ⟨rfl, rfl, rfl, rfl⟩

/-- Claim C5 counterexample: a document whose root Array (object 0) contains a
reference to itself, preceded by a reference to an object with an invalid
marker, fails with `InvalidOrUnsupportedObjectFormat`, not
`CycleDetected`. -/
theorem C5_earlier_error_wins :
    parse_metadata docBadBeforeSelf = .ok docBadBeforeSelfTable.metadata ∧
    ObjectTable.parse_array docBadBeforeSelfTable 0 = .ok [1, 0] ∧
    from_bytes docBadBeforeSelf = .err .InvalidOrUnsupportedObjectFormat ∧
    from_bytes docBadBeforeSelf ≠ .err .CycleDetected := by
  refine ⟨rfl, rfl, rfl, ?_⟩
  intro h
  rw [show from_bytes docBadBeforeSelf = .err .InvalidOrUnsupportedObjectFormat
    from rfl] at h
  exact absurd (Res.err.inj h) (by decide)

/-- Claim C10: `from_bytes` is not total — the offset-table extent computation
wraps around the 64-bit word and the subsequent slice indexing panics
(`docOverflow`), a declared offset-table entry size of zero trips the
`assert!` in `be_u64_n` (`docEntryZero`), and an object reference size of
9 trips the `assert!` in the `array` parser factory (`docRefSize9`). -/
theorem C10_decoder_panics :
    from_bytes docOverflow = .panic ∧ from_bytes docEntryZero = .panic ∧
    from_bytes docRefSize9 = .panic :=
  ⟨rfl, rfl, rfl⟩

/-- Claim C3 counterexample: a document whose offset table does not fit
mathematically (offset_table_offset is `2^64 - 1`) makes the wrapped bound
check pass, and metadata parsing panics at the offset-table slice instead
of failing with `MissingOrInvalidOffsetTable`. -/
theorem C3_overflow_panics :
    (42 : Nat) - 32 < 0xFFFFFFFFFFFFFFFF + 1 * 1 ∧
    parse_metadata docOffsetHuge = .panic ∧
    parse_metadata docOffsetHuge ≠ .err .MissingOrInvalidOffsetTable := by
  refine ⟨by norm_num, rfl, ?_⟩
  intro h
  rw [show parse_metadata docOffsetHuge = .panic from rfl] at h
  cases h

/-- Claim C3 witness: one concrete input per pipeline stage. -/
theorem C3_metadata_pipeline_witness :
    parse_metadata docEof30 = .err .Eof ∧
    parse_metadata docZero42 = .err .MissingOrInvalidHeader ∧
    parse_metadata docVersion15 = .err .UnsupportedVersion ∧
    parse_metadata docRootTooBig = .err .InvalidRootObject ∧
    parse_metadata docTableTooFar = .err .MissingOrInvalidOffsetTable := by
  refine ⟨?_, ?_, ?_, ?_, ?_⟩
  · exact C3_metadata_pipeline.1 docEof30 (by decide)
  · exact C3_metadata_pipeline.2.1 docZero42 (by decide) (by decide)
  · exact C3_metadata_pipeline.2.2.1 docVersion15 [] ⟨(0x31, 0x35)⟩
      (by decide) (by rfl) (by decide)
  · exact C3_metadata_pipeline.2.2.2.1 docRootTooBig [] [] ⟨(0x30, 0x30)⟩
      ⟨0, 0, 0, 0, 0, 0⟩ (by decide) (by rfl) (by rfl) (by rfl) (by decide)
  · exact C3_metadata_pipeline.2.2.2.2 docTableTooFar [] [] ⟨(0x30, 0x30)⟩
      ⟨0, 1, 1, 1, 0, 11⟩ (by decide) (by rfl) (by rfl) (by rfl) (by decide)
      (by decide)

/-- Claim C7 witness: on the one-object table, id 1 is rejected as
`InvalidObjectReference` and id 0 resolves to the suffix at offset 8. -/
theorem C7_data_for_characterization_witness :
    ObjectTable.data_for docRefOutTable 1 = .err .InvalidObjectReference ∧
    ObjectTable.data_for docRefOutTable 0 = .ok (docRefOut.drop 8) ∧
    docRefOutTable.metadata.offset_table.length = 1 := by
  refine ⟨?_, ?_, ?_⟩
  · exact (C7_data_for_characterization.1 docRefOutTable 1).1.mpr (by decide)
  · exact (C7_data_for_characterization.1 docRefOutTable 0).2.2
      ⟨by decide, by decide, by decide⟩
  · exact C7_data_for_characterization.2.1 docRefOut [] docRefOutTable.metadata
      ⟨0, 1, 1, 1, 0, 10⟩ (by rfl) (by rfl)

end BPlist
